import Mathlib

/-!
Verification development for the GweiZero asynchronous gas-optimization
pipeline.  The TypeScript services are shallowly embedded as executable Lean
definitions: JS numbers that carry gas values are modelled as exact rationals,
JS `Map` as a functional key-value store, external effectful collaborators
(the Hardhat worker, the AI providers, cryptographic hash primitives) as
call-indexed oracles or symbolic constructors, and each service method as a
pure function over that data.
-/

namespace GweiZero

/-! ## Generic string helpers (JS semantics) -/

/-- Substring search on character lists: `subSearch needle hay` is `true` iff
`needle` occurs contiguously in `hay`.  Models JS `String.prototype.includes`
(in particular, the empty needle is found in every string). -/
def subSearch (needle : List Char) : List Char → Bool
  | [] => needle.isEmpty
  | c :: t => needle.isPrefixOf (c :: t) || subSearch needle t

/-- JS `hay.includes(needle)`. -/
def strIncludes (hay needle : String) : Bool :=
  subSearch needle.data hay.data

/-- JS `s.toLowerCase()`, modelled as a character-wise lowering. -/
def lowerStr (s : String) : String :=
  ⟨s.data.map Char.toLower⟩

/-- Strip leading and trailing whitespace from a character list. -/
def trimChars (l : List Char) : List Char :=
  ((l.dropWhile Char.isWhitespace).reverse.dropWhile Char.isWhitespace).reverse

/-- JS `s.trim()`. -/
def jsTrim (s : String) : String :=
  ⟨trimChars s.data⟩

/-- JS `a || b` for strings: `b` when `a` is falsy (empty), else `a`. -/
def jsOrStr (a b : String) : String :=
  if a = "" then b else a

/-- JS `a || b` where `a` is an optional string (absent or empty is falsy). -/
def jsOrOpt (a : Option String) (b : String) : String :=
  match a with
  | none => b
  | some s => jsOrStr s b

/-! ## JS `Map` as a functional key-value store -/

/-- A JS `Map` observed through `get`/`set`/`delete`. -/
def JsMap (κ α : Type) := κ → Option α

/-- Embeds `new Map()`. -/
def JsMap.empty {κ α : Type} : JsMap κ α := fun _ => none

/-- Embeds `m.set(k, v)`. -/
def JsMap.set {κ α : Type} [DecidableEq κ] (m : JsMap κ α) (k : κ) (v : α) : JsMap κ α :=
  fun q => if q = k then some v else m q

/-- Embeds `m.delete(k)`. -/
def JsMap.erase {κ α : Type} [DecidableEq κ] (m : JsMap κ α) (k : κ) : JsMap κ α :=
  fun q => if q = k then none else m q

/-! ## AIOptimizerService: retriable-error classifier and provider fallback
(src/backend/src/services/ai-optimizer.service.ts) -/

/-- Embeds `AIOptimizerService.isRetriableError`: lowercases the error message and
looks for any of the markers `429`, `5`, `timeout`, `temporar`, `rate`,
`fetch failed`, `econnreset` as substrings. -/
def isRetriableError (message : String) : Bool :=
  let m := lowerStr message
  strIncludes m "429" ||
  strIncludes m "5" ||
  strIncludes m "timeout" ||
  strIncludes m "temporar" ||
  strIncludes m "rate" ||
  strIncludes m "fetch failed" ||
  strIncludes m "econnreset"

/-- Outcome of one raw `provider.generate(model, prompt, mode)` call. -/
inductive CallOutcome where
  | success (text : String)
  | failure (message : String)

/-- A provider: its name, its ordered model list, and its behaviour.
`generate m r` is the outcome of calling model `m` at retry index `r`
(the prompt and mode are fixed for one `callWithFallback` invocation, so the
pair `(model, retry)` identifies each call the loop can make). -/
structure ProviderE where
  name : String
  models : List String
  generate : String → Nat → CallOutcome

/-- The value returned by a successful provider call. -/
structure ProviderResultE where
  text : String
  provider : String
  model : String
  retriesUsed : Nat
deriving DecidableEq

/-- The body of the `try` block in `callWithFallback`: a successful call whose
text is empty (after trimming) throws `Empty AI response.`; any other success
returns the provider result. -/
def attemptResult (p : ProviderE) (m : String) (r : Nat) : Except String ProviderResultE :=
  match p.generate m r with
  | CallOutcome.success text =>
      if jsTrim text = "" then Except.error "Empty AI response."
      else Except.ok { text := text, provider := p.name, model := m, retriesUsed := r }
  | CallOutcome.failure msg => Except.error msg

/-- The failure line pushed onto `failures` for one failed attempt. -/
def failureLine (p : ProviderE) (m : String) (r : Nat) (msg : String) : String :=
  p.name ++ "/" ++ m ++ " retry " ++ toString r ++ ": " ++ msg

/-- The innermost `for (let retry = 0; retry <= retries; retry++)` loop of
`callWithFallback`, for one model.  On a failed attempt the failure line is
recorded and control always proceeds to the next retry of the same model: the
`catch` block's `continue` only bypasses the backoff sleep (which has no
observable effect here); it does not leave the retry loop. -/
def tryRetries (p : ProviderE) (m : String) (r : Nat) (fuel : Nat)
    (failures : List String) : Option ProviderResultE × List String :=
  match fuel with
  | 0 => (none, failures)
  | fuel + 1 =>
      match attemptResult p m r with
      | Except.ok res => (some res, failures)
      | Except.error msg =>
          tryRetries p m (r + 1) fuel (failures ++ [failureLine p m r msg])

/-- The `for (const model of provider.models)` loop. -/
def tryModels (p : ProviderE) (retries : Nat) (ms : List String)
    (failures : List String) : Option ProviderResultE × List String :=
  match ms with
  | [] => (none, failures)
  | m :: rest =>
      match tryRetries p m 0 (retries + 1) failures with
      | (some res, fs) => (some res, fs)
      | (none, fs) => tryModels p retries rest fs

/-- The `for (const provider of providers)` loop. -/
def tryProviders (retries : Nat) (ps : List ProviderE)
    (failures : List String) : Option ProviderResultE × List String :=
  match ps with
  | [] => (none, failures)
  | p :: rest =>
      match tryModels p retries p.models failures with
      | (some res, fs) => (some res, fs)
      | (none, fs) => tryProviders retries rest fs

/-- Embeds `AIOptimizerService.callWithFallback` with the retry budget
(`AI_PROVIDER_RETRIES`, default 2) passed explicitly.  Returns the first
successful provider result, or the terminal error enumerating every failed
attempt. -/
def callWithFallback (providers : List ProviderE) (retries : Nat) :
    Except String ProviderResultE :=
  match tryProviders retries providers [] with
  | (some res, _) => Except.ok res
  | (none, failures) =>
      Except.error ("All providers/models failed. " ++ String.intercalate " | " failures)

/-- The message of a failed attempt (including the `Empty AI response.` case),
`none` when the attempt succeeds. -/
def attemptFailureMsg (p : ProviderE) (m : String) (r : Nat) : Option String :=
  match attemptResult p m r with
  | Except.ok _ => none
  | Except.error msg => some msg

/-- The full attempt enumeration the fallback produces when everything fails:
for each provider in order, each of its models in order, one failure line per
retry index `0..retries` — every model is tried `retries + 1` times. -/
def expectedFailures (providers : List ProviderE) (retries : Nat) : List String :=
  providers.flatMap fun p =>
    p.models.flatMap fun m =>
      (List.range (retries + 1)).map fun r =>
        failureLine p m r ((attemptFailureMsg p m r).getD "")

/-! ## AnalysisService: ABI compatibility and acceptance validation
(src/backend/src/services/analysis.service.ts) -/

/-- One entry of an ABI function's `inputs` array.  The acceptance validator
only ever reads the *number* of inputs, so the parameter's type string and its
data location (memory vs calldata; the aspect a relocation changes) are
carried but never inspected by the check. -/
structure AbiParam where
  ptype : String
  location : String
deriving DecidableEq

/-- One item of a contract ABI, with the fields `functionSignatures` reads.
`itemType` is the JSON `type` discriminator (`"function"`, `"event"`, ...). -/
structure AbiItem where
  itemType : String
  name : String
  stateMutability : String
  inputs : List AbiParam
deriving DecidableEq

/-- The information content of the normalized signature string
`name(Nargs)@stateMutability` built by `functionSignatures`. -/
def sigOf (item : AbiItem) : String × Nat × String :=
  (item.name, item.inputs.length, item.stateMutability)

/-- Embeds `AnalysisService.functionSignatures`: iterate over the ABI, skip items
whose type is not `function`, and collect each one's normalized signature into
a set (the JS `Set` deduplicates, hence a `Finset`). -/
def functionSignatures (abi : List AbiItem) : Finset (String × Nat × String) :=
  (abi.filterMap fun item =>
    if item.itemType = "function" then some (sigOf item) else none).toFinset

/-- Embeds `AnalysisService.isAbiCompatible`: the two signature sets must have the
same size, and every baseline signature must appear among the optimized
signatures. -/
def isAbiCompatible (baselineAbi optimizedAbi : List AbiItem) : Bool :=
  let b := functionSignatures baselineAbi
  let o := functionSignatures optimizedAbi
  if b.card ≠ o.card then false
  else decide (b ⊆ o)

/-- A per-function gas measurement entry of a dynamic gas profile.  The JS
record stores `gasUsed` as a decimal string converted with `Number`; it is
modelled as an exact rational. -/
inductive FunctionGasEntry where
  | measured (gasUsed : ℚ) (stateMutability : String)
  | unmeasured (reason : String) (stateMutability : String)
deriving DecidableEq

/-- The `measured`, mutable (`nonpayable`/`payable`), strictly positive gas
value of an entry, if any — the filter chain of `averageFunctionGas` and
`coerceGas`. -/
def mutableMeasuredGas : FunctionGasEntry → Option ℚ
  | FunctionGasEntry.measured g m =>
      if (m = "nonpayable" ∨ m = "payable") ∧ 0 < g then some g else none
  | FunctionGasEntry.unmeasured _ _ => none

/-- A dynamic gas profile: deployment gas plus the per-function entries
(keyed by canonical signature). -/
structure GasProfileB where
  deploymentGas : ℚ
  functions : List (String × FunctionGasEntry)
deriving DecidableEq

/-- The worker's dynamic profile as consumed by the acceptance validator. -/
structure WorkerDynamicProfileB where
  abi : List AbiItem
  gasProfile : GasProfileB
deriving DecidableEq

/-- Embeds `AnalysisService.averageFunctionGas`: mean of the measured, mutable,
positive gas values; `0` when there are none. -/
def averageFunctionGas (functions : List (String × FunctionGasEntry)) : ℚ :=
  let numeric := functions.filterMap fun e => mutableMeasuredGas e.2
  if numeric.isEmpty then 0 else numeric.sum / numeric.length

/-- Embeds `AnalysisService.percentChange`: `0` when the baseline is non-positive,
otherwise the relative change in percent. -/
def percentChange (before after : ℚ) : ℚ :=
  if before ≤ 0 then 0 else (after - before) / before * 100

/-- Default of env `AI_MAX_ALLOWED_REGRESSION_PCT` (`envInt` returns the
fallback when the variable is unset). -/
def maxAllowedRegressionPct : ℚ := 10

/-- Default of env `AI_MAX_DEPLOYMENT_REGRESSION_PCT`. -/
def maxAllowedDeploymentRegressionPct : ℚ := 20

/-- The `checks` block of an acceptance verdict. -/
structure ChecksB where
  compiled : Bool
  abiCompatible : Bool
  deploymentGasRegressionPct : ℚ
  averageMutableFunctionRegressionPct : ℚ
  improved : Bool
deriving DecidableEq

/-- An acceptance verdict. -/
structure OptimizationValidationB where
  accepted : Bool
  reason : String
  checks : ChecksB
deriving DecidableEq

/-- Embeds `AnalysisService.validateOptimizedCandidate` at the default thresholds:
ABI gate first, then the mutable-function regression threshold, then the
deployment regression threshold, else acceptance with an improvement-dependent
reason. -/
def validateOptimizedCandidate (baseline optimized : WorkerDynamicProfileB) :
    OptimizationValidationB :=
  let abiCompatible := isAbiCompatible baseline.abi optimized.abi
  let deploymentBefore := baseline.gasProfile.deploymentGas
  let deploymentAfter := optimized.gasProfile.deploymentGas
  let deploymentGasRegressionPct := percentChange deploymentBefore deploymentAfter
  let avgBefore := averageFunctionGas baseline.gasProfile.functions
  let avgAfter := averageFunctionGas optimized.gasProfile.functions
  let averageMutableFunctionRegressionPct := percentChange avgBefore avgAfter
  let improved : Bool :=
    decide (deploymentAfter < deploymentBefore) || decide (avgAfter < avgBefore)
  let checks : ChecksB :=
    { compiled := true
      abiCompatible := abiCompatible
      deploymentGasRegressionPct := deploymentGasRegressionPct
      averageMutableFunctionRegressionPct := averageMutableFunctionRegressionPct
      improved := improved }
  if abiCompatible = false then
    { accepted := false, reason := "ABI compatibility check failed.", checks := checks }
  else if averageMutableFunctionRegressionPct > maxAllowedRegressionPct then
    { accepted := false
      reason := "Mutable-function gas regression exceeded threshold (10%)."
      checks := checks }
  else if deploymentGasRegressionPct > maxAllowedDeploymentRegressionPct then
    { accepted := false
      reason := "Deployment gas regression exceeded secondary threshold (20%)."
      checks := checks }
  else
    { accepted := true
      reason :=
        if improved then "Candidate accepted." else "Candidate accepted (neutral gas result)."
      checks := checks }

/-! ## AnalysisService: the acceptance attempts loop
(src/backend/src/services/analysis.service.ts, `generateAcceptedOptimization`
and `extractCompilationError`) -/

/-- The `meta` block of an AI optimization response.  Only the fields the
embedded functions read or write are carried; the remaining metadata fields
are opaque to them. -/
structure AIMetaB where
  provider : String := ""
  model : String := ""
  warnings : List String := []
deriving DecidableEq

/-- An AI optimization response, restricted to the fields the acceptance loop
reads or writes (`optimizedContract` is a plain string in the source type, so
an "absent" optimized contract is the empty string). -/
structure AIOptimizationResponseB where
  optimizedContract : String
  totalEstimatedSaving : String := ""
  meta : AIMetaB := {}
deriving DecidableEq

/-- Embeds `AnalysisService.extractCompilationError`: classify a compile error
message (lowercased) into a `(type, hint)` pair, or `none`. -/
def extractCompilationError (errorMessage : String) : Option (String × String) :=
  let errorStr := lowerStr errorMessage
  if strIncludes errorStr "data location can only be specified for array, struct or mapping" then
    some ("invalid_storage_location",
      "The \"storage\" keyword can only be used with reference types (arrays, structs, mappings). For value types like uint256, address, bool, do NOT use the storage keyword. Example: \"uint256 userPoints = points[addr];\" not \"uint256 storage userPoints = points[addr];\"")
  else if strIncludes errorStr "require" && (strIncludes errorStr "error" || strIncludes errorStr "revert") then
    some ("invalid_require_syntax",
      "Custom errors cannot be used with require(). Use \"if (!condition) revert ErrorName();\" instead of \"require(condition, ErrorName());\"")
  else if strIncludes errorStr "typeerror" || strIncludes errorStr "type error" then
    some ("type_error",
      "There is a type mismatch in the code. Check variable declarations and function signatures.")
  else if strIncludes errorStr "compilation failed" || strIncludes errorStr "parseerror" then
    some ("compilation_error",
      "The contract has syntax or semantic errors. Review the code carefully.")
  else
    none

/-- The external collaborators of the acceptance loop, as call-indexed
oracles: `getGasProfile n` is the outcome of the `n`-th call to
`HardhatService.getGasProfile` made by the loop (an `error` models a thrown
compile/benchmark failure carrying the error message), and
`getOptimizations n` is the response of the `n`-th corrective
`AIOptimizerService.getOptimizations` call. -/
structure PipelineOracle where
  getGasProfile : Nat → Except String WorkerDynamicProfileB
  getOptimizations : Nat → AIOptimizationResponseB

/-- The result of `generateAcceptedOptimization`, instrumented with
`gasProfileCalls`, the number of worker compile/benchmark
(`HardhatService.getGasProfile`) calls the loop performed. -/
structure LoopOutcome where
  aiResult : AIOptimizationResponseB
  optimizedDynamicProfile : Option WorkerDynamicProfileB
  validation : OptimizationValidationB
  attempts : Nat
  gasProfileCalls : Nat
deriving DecidableEq

/-- The all-false `checks` block used by the rejection results of the loop. -/
def emptyChecks : ChecksB :=
  { compiled := false
    abiCompatible := false
    deploymentGasRegressionPct := 0
    averageMutableFunctionRegressionPct := 0
    improved := false }

/-- The fallback result returned when every acceptance attempt failed:
the AI result is replaced by the original source with a rejection note and an
extra warning, and the verdict is a rejection naming the attempt count. -/
def exhaustedLoopResult (aiResult : AIOptimizationResponseB) (originalCode : String)
    (attempts gasCalls : Nat) : LoopOutcome :=
  { aiResult :=
      { aiResult with
        optimizedContract := originalCode
        totalEstimatedSaving :=
          "Rejected by acceptance policy after " ++ toString attempts ++ " attempts."
        meta :=
          { aiResult.meta with
            warnings := aiResult.meta.warnings ++
              ["Final acceptance failed after " ++ toString attempts ++ " attempts."] } }
    optimizedDynamicProfile := none
    validation :=
      { accepted := false
        reason := "No candidate passed acceptance after " ++ toString attempts ++ " attempts."
        checks := emptyChecks }
    attempts := attempts
    gasProfileCalls := gasCalls }

/-- The `for (let i = 0; i < maxAttempts; i++)` retry loop of
`generateAcceptedOptimization`: each attempt compiles and benchmarks the
candidate; on an accepted validation it returns; on a thrown compile error
that `extractCompilationError` recognizes it makes one corrective AI call and,
if that produced different code, compiles and validates that code too.
(The `feedback` strings built along the way only parameterize the corrective
AI call, which the oracle abstracts, so they are not tracked.) -/
def acceptanceLoop (oracle : PipelineOracle) (baseline : WorkerDynamicProfileB)
    (aiResult : AIOptimizationResponseB) (originalCode candidateCode : String)
    (attempts gasCalls aiCalls : Nat) : Nat → LoopOutcome
  | 0 => exhaustedLoopResult aiResult originalCode attempts gasCalls
  | fuel + 1 =>
      match oracle.getGasProfile gasCalls with
      | Except.ok profile =>
          let validation := validateOptimizedCandidate baseline profile
          if validation.accepted then
            { aiResult := aiResult
              optimizedDynamicProfile := some profile
              validation := validation
              attempts := attempts + 1
              gasProfileCalls := gasCalls + 1 }
          else
            acceptanceLoop oracle baseline aiResult originalCode candidateCode
              (attempts + 1) (gasCalls + 1) aiCalls fuel
      | Except.error msg =>
          match extractCompilationError msg with
          | none =>
              acceptanceLoop oracle baseline aiResult originalCode candidateCode
                (attempts + 1) (gasCalls + 1) aiCalls fuel
          | some _ =>
              let retryResult := oracle.getOptimizations aiCalls
              if retryResult.optimizedContract ≠ "" ∧
                  retryResult.optimizedContract ≠ candidateCode then
                match oracle.getGasProfile (gasCalls + 1) with
                | Except.ok retryProfile =>
                    let retryValidation := validateOptimizedCandidate baseline retryProfile
                    if retryValidation.accepted then
                      { aiResult := retryResult
                        optimizedDynamicProfile := some retryProfile
                        validation := retryValidation
                        attempts := attempts + 1
                        gasProfileCalls := gasCalls + 2 }
                    else
                      acceptanceLoop oracle baseline aiResult originalCode candidateCode
                        (attempts + 1) (gasCalls + 2) (aiCalls + 1) fuel
                | Except.error _ =>
                    acceptanceLoop oracle baseline aiResult originalCode candidateCode
                      (attempts + 1) (gasCalls + 2) (aiCalls + 1) fuel
              else
                acceptanceLoop oracle baseline aiResult originalCode candidateCode
                  (attempts + 1) (gasCalls + 1) (aiCalls + 1) fuel

/-- Embeds `AnalysisService.generateAcceptedOptimization` after the initial AI call
(whose response is `aiResult`): compute the candidate code
(`aiResult.optimizedContract?.trim() || originalCode`); when it is empty or
identical to the original source, skip validation entirely and return the
`AI returned unchanged code.` rejection with one attempt and zero worker
calls; otherwise run the acceptance loop with
`AI_ACCEPTANCE_MAX_ATTEMPTS` (default 3) attempts. -/
def generateAcceptedOptimization (oracle : PipelineOracle) (originalCode : String)
    (baseline : WorkerDynamicProfileB) (aiResult : AIOptimizationResponseB)
    (maxAttempts : Nat := 3) : LoopOutcome :=
  let candidateCode := jsOrStr (jsTrim aiResult.optimizedContract) originalCode
  if candidateCode = "" ∨ candidateCode = originalCode then
    { aiResult := aiResult
      optimizedDynamicProfile := none
      validation :=
        { accepted := false
          reason := "AI returned unchanged code."
          checks := emptyChecks }
      attempts := 1
      gasProfileCalls := 0 }
  else
    acceptanceLoop oracle baseline aiResult originalCode candidateCode 0 0 0 maxAttempts

/-! ## Worker JobStoreService
(src/worker/src/services/job-store.service.ts) -/

/-- Worker job statuses. -/
inductive WorkerJobStatus where
  | queued
  | processing
  | completed
  | failed
  | cancelled
deriving DecidableEq

/-- The worker's gas-profile result payload.  Its contents are produced by
`WorkerAnalysisService` and are never inspected by the job store, so it is
carried as an opaque payload. -/
structure WorkerGasProfileResultB where
  payload : String
deriving DecidableEq

/-- A persisted worker job record (`AnalysisJobRecord` of the worker). -/
structure WorkerJobRecord where
  id : String
  sourceCode : String
  status : WorkerJobStatus
  attempts : Nat
  cancelRequested : Bool
  createdAt : Nat
  updatedAt : Nat
  error : Option String := none
  result : Option WorkerGasProfileResultB := none
  retryOf : Option String := none
deriving DecidableEq

/-- The public view of a worker job (`Omit<AnalysisJobRecord, 'sourceCode'>`). -/
structure WorkerJobPub where
  id : String
  status : WorkerJobStatus
  attempts : Nat
  cancelRequested : Bool
  createdAt : Nat
  updatedAt : Nat
  error : Option String
  result : Option WorkerGasProfileResultB
  retryOf : Option String
deriving DecidableEq

/-- Embeds `JobStoreService.toPublicJob`: drop the source code. -/
def toPublicWorkerJob (job : WorkerJobRecord) : WorkerJobPub :=
  { id := job.id
    status := job.status
    attempts := job.attempts
    cancelRequested := job.cancelRequested
    createdAt := job.createdAt
    updatedAt := job.updatedAt
    error := job.error
    result := job.result
    retryOf := job.retryOf }

/-- The worker store's in-memory state: the `jobs` map. -/
structure WorkerStoreState where
  jobs : JsMap String WorkerJobRecord

/-- Embeds `JobStoreService.ensureInitialized` after a process restart: the persisted
records are loaded into the (empty) in-memory map verbatim — no record is
re-queued, resumed, or marked failed. -/
def storeAfterRestart (persisted : List WorkerJobRecord) : WorkerStoreState :=
  { jobs := persisted.foldl (fun m job => m.set job.id job) JsMap.empty }

/-- Embeds `JobStoreService.getJob`: the public view of the stored record, if any. -/
def workerGetJob (st : WorkerStoreState) (id : String) : Option WorkerJobPub :=
  (st.jobs id).map toPublicWorkerJob

/-- The fresh record `retryJob` builds for a retried job. -/
def retryRecordOf (previous : WorkerJobRecord) (freshId : String) (now : Nat) :
    WorkerJobRecord :=
  { id := freshId
    sourceCode := previous.sourceCode
    status := WorkerJobStatus.queued
    attempts := previous.attempts + 1
    cancelRequested := false
    createdAt := now
    updatedAt := now
    retryOf := some previous.id }

/-- Embeds `JobStoreService.retryJob`: missing id returns nothing; a prior job that
is neither `failed` nor `cancelled` is returned unchanged and no job is
created; otherwise a brand-new queued record (fresh UUID `freshId`, taken at
time `now`) is stored and returned. -/
def workerRetryJob (st : WorkerStoreState) (id : String) (now : Nat) (freshId : String) :
    Option WorkerJobPub × WorkerStoreState :=
  match st.jobs id with
  | none => (none, st)
  | some previous =>
      if previous.status ≠ WorkerJobStatus.failed ∧
          previous.status ≠ WorkerJobStatus.cancelled then
        (some (toPublicWorkerJob previous), st)
      else
        let retryJob := retryRecordOf previous freshId now
        (some (toPublicWorkerJob retryJob), { jobs := st.jobs.set freshId retryJob })

/-! ## Orchestrator AnalysisJobService
(backend `analysis-job.service.ts`) -/

/-- Orchestrator analysis-job statuses. -/
inductive AnalysisJobStatus where
  | queued
  | static_analysis
  | dynamic_analysis
  | ai_optimization
  | completed
  | failed
  | cancelled
deriving DecidableEq

/-- A progress event recorded on an analysis job. -/
structure ProgressEventB where
  phase : AnalysisJobStatus
  message : String
  timestamp : Nat
deriving DecidableEq

/-- The static profile of an analysis result (only the contract name is read
by the embedded services). -/
structure StaticProfileB where
  contractName : String
deriving DecidableEq

/-- Embeds `AnalysisResult`, the value returned by `AnalysisService.processContract`,
restricted to the fields the embedded services read. -/
structure AnalysisResultB where
  originalContract : String
  staticProfile : StaticProfileB
  dynamicProfile : WorkerDynamicProfileB
  aiOptimizations : AIOptimizationResponseB
  optimizedDynamicProfile : Option WorkerDynamicProfileB
  optimizationValidation : OptimizationValidationB
  optimizationAttempts : Nat
deriving DecidableEq

/-- An orchestrator analysis-job record. -/
structure AnalysisJobRecordB where
  id : String
  code : String
  status : AnalysisJobStatus
  createdAt : Nat
  updatedAt : Nat
  cancelRequested : Bool
  error : Option String := none
  result : Option AnalysisResultB := none
  events : List ProgressEventB
deriving DecidableEq

/-- The public view of an analysis job (`Omit<AnalysisJobRecord, 'code'>`). -/
structure AnalysisJobPub where
  id : String
  status : AnalysisJobStatus
  createdAt : Nat
  updatedAt : Nat
  cancelRequested : Bool
  error : Option String
  result : Option AnalysisResultB
  events : List ProgressEventB
deriving DecidableEq

/-- Embeds `AnalysisJobService.toPublicJob`: drop the source code. -/
def toPublicAnalysisJob (job : AnalysisJobRecordB) : AnalysisJobPub :=
  { id := job.id
    status := job.status
    createdAt := job.createdAt
    updatedAt := job.updatedAt
    cancelRequested := job.cancelRequested
    error := job.error
    result := job.result
    events := job.events }

/-- A code fingerprint: `crypto.createHash('sha256')` is an external
collaborator, so the digest is modelled symbolically — the constructor records
the exact string that was hashed. -/
structure CodeFingerprint where
  hashedText : String
deriving DecidableEq

/-- Embeds `AnalysisJobService.codeHash`: SHA-256 of the *trimmed* source. -/
def codeHash (code : String) : CodeFingerprint :=
  ⟨jsTrim code⟩

/-- Default of env `ANALYSIS_JOB_DEDUPE_TTL_MS`: ten minutes. -/
def dedupeTtlMs : Nat := 10 * 60 * 1000

/-- The orchestrator registry state: the job map and the fingerprint → job-id
dedupe map. -/
structure RegistryState where
  jobs : JsMap String AnalysisJobRecordB
  codeHashToJobId : JsMap CodeFingerprint String

/-- A status is terminal when it is `completed`, `failed` or `cancelled`. -/
def analysisTerminal (s : AnalysisJobStatus) : Prop :=
  s = AnalysisJobStatus.completed ∨ s = AnalysisJobStatus.failed ∨
    s = AnalysisJobStatus.cancelled

instance (s : AnalysisJobStatus) : Decidable (analysisTerminal s) := by
  unfold analysisTerminal
  infer_instance

/-- The fresh queued record `createOrReuseJob` stores for a new submission:
status `queued` and a single `queued` progress event. -/
def newQueuedAnalysisJob (code : String) (now : Nat) (freshId : String) :
    AnalysisJobRecordB :=
  { id := freshId
    code := code
    status := AnalysisJobStatus.queued
    createdAt := now
    updatedAt := now
    cancelRequested := false
    events := [{ phase := AnalysisJobStatus.queued, message := "Job queued.", timestamp := now }] }

/-- The result of `createOrReuseJob`: the (public) job, the `reused` flag, and
the updated registry state. -/
structure CreateOrReuseResult where
  job : AnalysisJobPub
  reused : Bool
  state : RegistryState

/-- The shared tail of `createOrReuseJob` that registers a brand-new job under
the submission's fingerprint. -/
def registerNewJob (st : RegistryState) (code : String) (now : Nat) (freshId : String) :
    CreateOrReuseResult :=
  let job := newQueuedAnalysisJob code now freshId
  { job := toPublicAnalysisJob job
    reused := false
    state :=
      { jobs := st.jobs.set freshId job
        codeHashToJobId := st.codeHashToJobId.set (codeHash code) freshId } }

/-- Embeds `AnalysisJobService.createOrReuseJob`: look up the fingerprint mapping;
reuse the mapped job when it exists and is non-terminal, or terminal with
status `completed` and updated within the dedupe TTL; otherwise drop the
mapping (when present) and register a fresh queued job under a new UUID
(`freshId`, taken at time `now`). -/
def createOrReuseJob (st : RegistryState) (code : String) (now : Nat) (freshId : String) :
    CreateOrReuseResult :=
  match st.codeHashToJobId (codeHash code) with
  | some existingJobId =>
      match st.jobs existingJobId with
      | some existing =>
          let withinTtl := now - existing.updatedAt ≤ dedupeTtlMs
          if ¬ analysisTerminal existing.status ∨
              (analysisTerminal existing.status ∧
                existing.status = AnalysisJobStatus.completed ∧ withinTtl) then
            { job := toPublicAnalysisJob existing, reused := true, state := st }
          else
            registerNewJob
              { st with codeHashToJobId := st.codeHashToJobId.erase (codeHash code) }
              code now freshId
      | none =>
          registerNewJob
            { st with codeHashToJobId := st.codeHashToJobId.erase (codeHash code) }
            code now freshId
  | none => registerNewJob st code now freshId

/-! ## ProofMintService
(src/backend/src/services/proof-mint.service.ts) -/

/-- A 32-byte hash value.  `ethers.keccak256(ethers.toUtf8Bytes(s))` is an
external collaborator, so it is modelled symbolically: the constructor records
exactly which string's UTF-8 bytes were hashed. -/
inductive HashVal where
  | keccak256OfUtf8 (source : String)
deriving DecidableEq

/-- Embeds `ethers.ZeroAddress`. -/
def zeroAddress : String := "0x0000000000000000000000000000000000000000"

/-- Embeds `ProofMintService.toUint32`: `0` for non-positive values, otherwise the
rounded value clamped to the `uint32` maximum. -/
def toUint32 (value : ℚ) : ℤ :=
  if value ≤ 0 then 0 else min 4294967295 (round value)

/-- Embeds `ProofMintService.coerceGas`: the average of the measured, mutable,
positive per-function gas values when there are any, else the deployment gas —
in both cases clamped to `uint32`. -/
def coerceGas (gasProfile : GasProfileB) : ℤ :=
  let numericFns := gasProfile.functions.filterMap fun e => mutableMeasuredGas e.2
  if ¬ numericFns.isEmpty then toUint32 (numericFns.sum / numericFns.length)
  else toUint32 gasProfile.deploymentGas

/-- The savings expression of `ProofMintService.buildProofPayload`:
`originalGas > 0 ? max(0, min(10000, round((orig - opt) / orig * 10000))) : 0`. -/
def savingsPercentBps (originalGas optimizedGas : ℤ) : ℤ :=
  if 0 < originalGas then
    max 0 (min 10000 (round ((((originalGas : ℚ) - (optimizedGas : ℚ)) / (originalGas : ℚ)) * 10000)))
  else 0

/-- The proof payload. -/
structure ProofPayloadB where
  originalHash : HashVal
  optimizedHash : HashVal
  contractAddress : String
  contractName : String
  originalGas : ℤ
  optimizedGas : ℤ
  savingsPercentBps : ℤ
deriving DecidableEq

/-- Embeds `ProofMintService.buildProofPayload`: refuse (throw) unless the job has a
result, is `completed`, passed acceptance, and has an optimized profile; then
hash the original source and the optimized source (falling back to the
original when the optimized contract string is empty, i.e. JS-falsy), coerce
both gas figures and compute the clamped savings. -/
def buildProofPayload (job : AnalysisJobRecordB)
    (contractAddress contractName : Option String) : Except String ProofPayloadB :=
  match job.result with
  | none => Except.error "Analysis result is missing."
  | some result =>
      if job.status ≠ AnalysisJobStatus.completed then
        Except.error "Analysis job must be completed before proof generation."
      else if result.optimizationValidation.accepted = false then
        Except.error "Optimization did not pass final acceptance validation."
      else
        match result.optimizedDynamicProfile with
        | none => Except.error "Missing optimized gas profile for accepted optimization."
        | some optimizedProfile =>
            let originalCode := job.code
            let optimizedCode := jsOrStr result.aiOptimizations.optimizedContract job.code
            let originalGas := coerceGas result.dynamicProfile.gasProfile
            let optimizedGas := coerceGas optimizedProfile.gasProfile
            Except.ok
              { originalHash := HashVal.keccak256OfUtf8 originalCode
                optimizedHash := HashVal.keccak256OfUtf8 optimizedCode
                contractAddress := jsOrOpt contractAddress zeroAddress
                contractName :=
                  jsOrOpt contractName
                    (jsOrStr result.staticProfile.contractName "UnknownContract")
                originalGas := originalGas
                optimizedGas := optimizedGas
                savingsPercentBps := savingsPercentBps originalGas optimizedGas }

/-- Item-wise relation: two ABI items that agree on everything the ABI
records except their parameters' data locations (same JSON type, name,
mutability, and input lists of equal length with equal parameter types). -/
def relocItem (i j : AbiItem) : Prop :=
  i.itemType = j.itemType ∧ i.name = j.name ∧ i.stateMutability = j.stateMutability ∧
    List.Forall₂ (fun p q => p.ptype = q.ptype) i.inputs j.inputs

/-- A candidate ABI that differs from the baseline only by moving parameters'
data locations. -/
def AbiRelocatedOnly (b o : List AbiItem) : Prop :=
  List.Forall₂ relocItem b o

/-! ## Concrete example inputs used by witnesses and counterexamples -/

/-- A provider whose single model always fails with a non-retriable error. -/
def exProviderBadRequest : ProviderE :=
  { name := "p", models := ["m"], generate := fun _ _ => CallOutcome.failure "bad request" }

/-- A mutable function item taking one in-memory array parameter. -/
def exSeedValuesItem : AbiItem :=
  { itemType := "function", name := "seedValues", stateMutability := "nonpayable",
    inputs := [{ ptype := "uint256[]", location := "memory" }] }

/-- An ABI with one mutable function taking one in-memory array parameter. -/
def exAbiMemory : List AbiItem :=
  [exSeedValuesItem]

/-- The same ABI with the parameter relocated to calldata. -/
def exAbiCalldata : List AbiItem :=
  [{ itemType := "function", name := "seedValues", stateMutability := "nonpayable",
     inputs := [{ ptype := "uint256[]", location := "calldata" }] }]

/-- A new function item not present in `exAbiMemory`. -/
def exAbiExtraItem : AbiItem :=
  { itemType := "function", name := "drainAll", stateMutability := "nonpayable", inputs := [] }

/-- A baseline dynamic profile: one measured mutable function, deployment gas
100000. -/
def exBaselineProfile : WorkerDynamicProfileB :=
  { abi := exAbiMemory
    gasProfile :=
      { deploymentGas := 100000
        functions := [("seedValues(uint256[])", FunctionGasEntry.measured 100000 "nonpayable")] } }

/-- An optimized dynamic profile over the relocated ABI with improved gas. -/
def exOptimizedProfile : WorkerDynamicProfileB :=
  { abi := exAbiCalldata
    gasProfile :=
      { deploymentGas := 90000
        functions := [("seedValues(uint256[])", FunctionGasEntry.measured 80000 "nonpayable")] } }

/-- An optimized profile whose ABI dropped the only function (ABI break). -/
def exIncompatibleProfile : WorkerDynamicProfileB :=
  { abi := []
    gasProfile := { deploymentGas := 90000, functions := [] } }

/-- A worker job record persisted as `processing` (an orphan at restart). -/
def orphanPersistedJob : WorkerJobRecord :=
  { id := "job-1", sourceCode := "contract Demo", status := WorkerJobStatus.processing,
    attempts := 1, cancelRequested := false, createdAt := 0, updatedAt := 0 }

/-- A worker job record that terminated as `failed`. -/
def exFailedWorkerJob : WorkerJobRecord :=
  { id := "job-a", sourceCode := "contract Demo", status := WorkerJobStatus.failed,
    attempts := 1, cancelRequested := false, createdAt := 0, updatedAt := 5,
    error := some "boom" }

/-- A worker store holding only `exFailedWorkerJob`. -/
def exWorkerStore : WorkerStoreState :=
  { jobs := JsMap.empty.set "job-a" exFailedWorkerJob }

/-- A queued (non-terminal) analysis job record for source `"src"`. -/
def exQueuedAnalysisJob : AnalysisJobRecordB :=
  newQueuedAnalysisJob "src" 0 "job-q"

/-- A registry state whose dedupe map points the fingerprint of `"src"` at the
queued job `exQueuedAnalysisJob`. -/
def exRegistryState : RegistryState :=
  { jobs := JsMap.empty.set "job-q" exQueuedAnalysisJob
    codeHashToJobId := JsMap.empty.set (codeHash "src") "job-q" }

/-- A successful AI response used by the proof-payload witness. -/
def exAcceptedAiResponse : AIOptimizationResponseB :=
  { optimizedContract := "contract Demo2", totalEstimatedSaving := "20%" }

/-- An accepted validation verdict (as recorded for an improved candidate). -/
def exAcceptedValidation : OptimizationValidationB :=
  { accepted := true
    reason := "Candidate accepted."
    checks :=
      { compiled := true, abiCompatible := true, deploymentGasRegressionPct := -10,
        averageMutableFunctionRegressionPct := -20, improved := true } }

/-- A completed, accepted analysis result. -/
def exAcceptedResult : AnalysisResultB :=
  { originalContract := "contract Demo"
    staticProfile := { contractName := "Demo" }
    dynamicProfile := exBaselineProfile
    aiOptimizations := exAcceptedAiResponse
    optimizedDynamicProfile := some exOptimizedProfile
    optimizationValidation := exAcceptedValidation
    optimizationAttempts := 1 }

/-- A completed analysis job carrying `exAcceptedResult`. -/
def exCompletedAnalysisJob : AnalysisJobRecordB :=
  { id := "job-c", code := "contract Demo", status := AnalysisJobStatus.completed,
    createdAt := 0, updatedAt := 0, cancelRequested := false,
    result := some exAcceptedResult, events := [] }

/-- An AI response whose optimized contract is whitespace only. -/
def exBlankAiResponse : AIOptimizationResponseB :=
  { optimizedContract := "   " }

/-- A pipeline oracle that is never consulted in the skip branch. -/
def exIdleOracle : PipelineOracle :=
  { getGasProfile := fun _ => Except.error "unused"
    getOptimizations := fun _ => { optimizedContract := "" } }

/-! ## Helper lemmas -/

/-- A single character that occurs in a list is found by the substring
search. -/
theorem subSearch_of_mem {c : Char} : ∀ {l : List Char}, c ∈ l → subSearch [c] l = true := by
  intro l h
  induction l with
  | nil => cases h
  | cons a t ih =>
      rcases List.mem_cons.mp h with h1 | h1
      · subst h1
        simp [subSearch, List.isPrefixOf]
      · simp [subSearch, ih h1]

/-- Both clamp bounds of `savingsPercentBps`, for all integer inputs. -/
theorem savingsPercentBps_range (o p : ℤ) :
    0 ≤ savingsPercentBps o p ∧ savingsPercentBps o p ≤ 10000 := by
  unfold savingsPercentBps
  split
  · exact ⟨le_max_left _ _, max_le (by norm_num) (min_le_left _ _)⟩
  · exact ⟨le_refl 0, by norm_num⟩

/-! ## C9 -/

/-- C9: the retriable-error classifier returns `true` for every error message
containing the character `5` anywhere — the `message.includes('5')` test does
not distinguish genuine 5xx status markers from any other occurrence of the
digit. -/
theorem isRetriableError_of_contains_five (message : String)
    (h : '5' ∈ message.data) : isRetriableError message = true := by
  have hlow : Char.toLower '5' = '5' := by decide
  have h2 : '5' ∈ (lowerStr message).data := by
    have hm : Char.toLower '5' ∈ message.data.map Char.toLower :=
      List.mem_map_of_mem Char.toLower h
    rw [hlow] at hm
    simpa [lowerStr] using hm
  have h3 : strIncludes (lowerStr message) "5" = true := by
    have hs : subSearch ['5'] (lowerStr message).data = true := subSearch_of_mem h2
    simpa [strIncludes] using hs
  simp [isRetriableError, h3]

/-- Witness for C9 at a concrete message whose only `5` is part of a token
count in an HTTP 400 error. -/
theorem isRetriableError_of_contains_five_witness :
    '5' ∈ ("OpenAI error 400: request used 15 tokens").data ∧
      isRetriableError "OpenAI error 400: request used 15 tokens" = true :=
  ⟨by decide, isRetriableError_of_contains_five _ (by decide)⟩

/-! ## C3 -/

/-- C3 (code bug evidence): a job persisted as `processing` is still reported
as `processing` by the first status query after a worker restart — the store
reloads persisted records verbatim and never marks orphans failed (the reason
string `Worker restarted during processing.` does not occur in the worker), so
the ghost `processing` state survives the restart, contradicting the claim. -/
theorem orphan_processing_survives_restart :
    workerGetJob (storeAfterRestart [orphanPersistedJob]) "job-1" =
      some { id := "job-1", status := WorkerJobStatus.processing, attempts := 1,
             cancelRequested := false, createdAt := 0, updatedAt := 0,
             error := none, result := none, retryOf := none } ∧
    WorkerJobStatus.processing ≠ WorkerJobStatus.failed := by
  constructor
  · rfl
  · decide

/-- Master characterization of `buildProofPayload`: it returns a payload
exactly when the job has a result, is completed, passed acceptance and has an
optimized profile, and the payload is then fully determined. -/
theorem buildProofPayload_eq_ok (job : AnalysisJobRecordB) (addr nm : Option String)
    (payload : ProofPayloadB) :
    buildProofPayload job addr nm = Except.ok payload ↔
      ∃ res optProfile,
        job.result = some res ∧ job.status = AnalysisJobStatus.completed ∧
        res.optimizationValidation.accepted = true ∧
        res.optimizedDynamicProfile = some optProfile ∧
        payload =
          { originalHash := HashVal.keccak256OfUtf8 job.code
            optimizedHash :=
              HashVal.keccak256OfUtf8 (jsOrStr res.aiOptimizations.optimizedContract job.code)
            contractAddress := jsOrOpt addr zeroAddress
            contractName :=
              jsOrOpt nm (jsOrStr res.staticProfile.contractName "UnknownContract")
            originalGas := coerceGas res.dynamicProfile.gasProfile
            optimizedGas := coerceGas optProfile.gasProfile
            savingsPercentBps :=
              savingsPercentBps (coerceGas res.dynamicProfile.gasProfile)
                (coerceGas optProfile.gasProfile) } := by
  unfold buildProofPayload
  rcases hres : job.result with _ | res
  · simp [hres]
  · by_cases hst : job.status = AnalysisJobStatus.completed
    · by_cases hacc : res.optimizationValidation.accepted = false
      · simp [hres, hst, hacc]
      · rcases hopt : res.optimizedDynamicProfile with _ | optProfile
        · simp [hres, hst, hacc, hopt]
        · have hacc2 : res.optimizationValidation.accepted = true := by
            simpa using hacc
          simp only [hres, hst, hopt]
          simp [hacc2, hopt]
          exact eq_comm
    · simp [hres, hst]

/-! ## C7 -/

/-- C7: the savings figure of every built proof payload lies in
`[0, 10000]` basis points; for a positive original gas it equals the rounded
relative saving clamped to that interval, for a non-positive original gas it
is `0`, and the 100000 → 80000 example yields 2000 bps. -/
theorem savingsPercentBps_spec :
    (∀ (job : AnalysisJobRecordB) (addr nm : Option String) (payload : ProofPayloadB),
        buildProofPayload job addr nm = Except.ok payload →
          0 ≤ payload.savingsPercentBps ∧ payload.savingsPercentBps ≤ 10000) ∧
    (∀ o p : ℤ, 0 < o →
        savingsPercentBps o p =
          max 0 (min 10000 (round ((((o : ℚ) - (p : ℚ)) / (o : ℚ)) * 10000)))) ∧
    (∀ o p : ℤ, o ≤ 0 → savingsPercentBps o p = 0) ∧
    (∀ o p : ℤ, 0 ≤ savingsPercentBps o p ∧ savingsPercentBps o p ≤ 10000) ∧
    savingsPercentBps 100000 80000 = 2000 := by
  refine ⟨?_, ?_, ?_, savingsPercentBps_range, ?_⟩
  · intro job addr nm payload h
    rcases (buildProofPayload_eq_ok job addr nm payload).mp h with
      ⟨res, optProfile, _, _, _, _, hp⟩
    rw [hp]
    exact savingsPercentBps_range _ _
  · intro o p hpos
    unfold savingsPercentBps
    rw [if_pos hpos]
  · intro o p hle
    unfold savingsPercentBps
    rw [if_neg (not_lt.mpr hle)]
  · unfold savingsPercentBps
    rw [if_pos (by norm_num)]
    norm_num

/-- Witness for C7, instantiating the positive-gas clamp equation and the
non-positive guard at concrete gas values. -/
theorem savingsPercentBps_spec_witness :
    savingsPercentBps 100000 80000 =
        max 0 (min 10000
          (round (((((100000 : ℤ) : ℚ) - ((80000 : ℤ) : ℚ)) / ((100000 : ℤ) : ℚ)) * 10000))) ∧
      savingsPercentBps (-3) 7 = 0 :=
  ⟨savingsPercentBps_spec.2.1 100000 80000 (by norm_num),
   savingsPercentBps_spec.2.2.1 (-3) 7 (by norm_num)⟩

/-! ## C8 -/

/-- C8: `buildProofPayload` yields a payload exactly when the job has a
result, its status is `completed`, the acceptance verdict is accepted and an
optimized dynamic profile is present; the payload then hashes the UTF-8
original source, and the UTF-8 optimized source — falling back to the
original source when the optimized contract string is absent (in the source
type `optimizedContract` is a plain string, so absence is the JS-falsy empty
string). -/
theorem buildProofPayload_preconditions_and_hashes (job : AnalysisJobRecordB)
    (addr nm : Option String) :
    ((∃ payload, buildProofPayload job addr nm = Except.ok payload) ↔
      ∃ res, job.result = some res ∧ job.status = AnalysisJobStatus.completed ∧
        res.optimizationValidation.accepted = true ∧
        res.optimizedDynamicProfile.isSome = true) ∧
    (∀ res payload, job.result = some res →
        buildProofPayload job addr nm = Except.ok payload →
        payload.originalHash = HashVal.keccak256OfUtf8 job.code ∧
        (res.aiOptimizations.optimizedContract = "" →
          payload.optimizedHash = HashVal.keccak256OfUtf8 job.code) ∧
        (res.aiOptimizations.optimizedContract ≠ "" →
          payload.optimizedHash =
            HashVal.keccak256OfUtf8 res.aiOptimizations.optimizedContract)) := by
  constructor
  · constructor
    · rintro ⟨payload, h⟩
      rcases (buildProofPayload_eq_ok job addr nm payload).mp h with
        ⟨res, optProfile, h1, h2, h3, h4, _⟩
      exact ⟨res, h1, h2, h3, by rw [h4]; rfl⟩
    · rintro ⟨res, h1, h2, h3, h4⟩
      rcases Option.isSome_iff_exists.mp h4 with ⟨optProfile, hop⟩
      exact ⟨_, (buildProofPayload_eq_ok job addr nm _).mpr
        ⟨res, optProfile, h1, h2, h3, hop, rfl⟩⟩
  · intro res payload hres h
    rcases (buildProofPayload_eq_ok job addr nm payload).mp h with
      ⟨res2, optProfile, h1, _, _, _, hp⟩
    have hres2 : res2 = res := by
      rw [hres] at h1
      exact (Option.some.injEq _ _ ▸ h1.symm :)
    subst hres2
    refine ⟨by rw [hp], ?_, ?_⟩
    · intro hempty
      rw [hp]
      simp [jsOrStr, hempty]
    · intro hne
      rw [hp]
      simp [jsOrStr, hne]

/-- Witness for C8: a concrete completed, accepted job with an optimized
profile yields a payload, and its hashes are those of the original and the
(non-empty) optimized source. -/
theorem buildProofPayload_preconditions_witness :
    (∃ payload, buildProofPayload exCompletedAnalysisJob none none = Except.ok payload) ∧
    (∀ payload, buildProofPayload exCompletedAnalysisJob none none = Except.ok payload →
      payload.originalHash = HashVal.keccak256OfUtf8 "contract Demo" ∧
      payload.optimizedHash = HashVal.keccak256OfUtf8 "contract Demo2") := by
  constructor
  · exact (buildProofPayload_preconditions_and_hashes exCompletedAnalysisJob none none).1.mpr
      ⟨exAcceptedResult, rfl, rfl, by decide, rfl⟩
  · intro payload h
    have h2 := (buildProofPayload_preconditions_and_hashes exCompletedAnalysisJob
      none none).2 exAcceptedResult payload rfl h
    exact ⟨h2.1, h2.2.2 (by decide)⟩

/-! ## C1 -/

/-- C1: the acceptance decision cascade — ABI gate first (with its fixed
reason), then the average mutable-function regression threshold (default 10),
then the deployment regression threshold (default 20), else acceptance with
the improvement-dependent reason; each regression percentage is
`(after - before) / before * 100`, and `0` when `before ≤ 0`. -/
theorem acceptance_decision_order (baseline optimized : WorkerDynamicProfileB) :
    (isAbiCompatible baseline.abi optimized.abi = false →
      (validateOptimizedCandidate baseline optimized).accepted = false ∧
      (validateOptimizedCandidate baseline optimized).reason =
        "ABI compatibility check failed.") ∧
    (isAbiCompatible baseline.abi optimized.abi = true →
      (if averageFunctionGas baseline.gasProfile.functions ≤ 0 then (0 : ℚ) else
        (averageFunctionGas optimized.gasProfile.functions -
          averageFunctionGas baseline.gasProfile.functions) /
          averageFunctionGas baseline.gasProfile.functions * 100) > 10 →
      (validateOptimizedCandidate baseline optimized).accepted = false) ∧
    (isAbiCompatible baseline.abi optimized.abi = true →
      (if averageFunctionGas baseline.gasProfile.functions ≤ 0 then (0 : ℚ) else
        (averageFunctionGas optimized.gasProfile.functions -
          averageFunctionGas baseline.gasProfile.functions) /
          averageFunctionGas baseline.gasProfile.functions * 100) ≤ 10 →
      (if baseline.gasProfile.deploymentGas ≤ 0 then (0 : ℚ) else
        (optimized.gasProfile.deploymentGas - baseline.gasProfile.deploymentGas) /
          baseline.gasProfile.deploymentGas * 100) > 20 →
      (validateOptimizedCandidate baseline optimized).accepted = false) ∧
    (isAbiCompatible baseline.abi optimized.abi = true →
      (if averageFunctionGas baseline.gasProfile.functions ≤ 0 then (0 : ℚ) else
        (averageFunctionGas optimized.gasProfile.functions -
          averageFunctionGas baseline.gasProfile.functions) /
          averageFunctionGas baseline.gasProfile.functions * 100) ≤ 10 →
      (if baseline.gasProfile.deploymentGas ≤ 0 then (0 : ℚ) else
        (optimized.gasProfile.deploymentGas - baseline.gasProfile.deploymentGas) /
          baseline.gasProfile.deploymentGas * 100) ≤ 20 →
      (validateOptimizedCandidate baseline optimized).accepted = true ∧
      (validateOptimizedCandidate baseline optimized).reason =
        (if optimized.gasProfile.deploymentGas < baseline.gasProfile.deploymentGas ∨
            averageFunctionGas optimized.gasProfile.functions <
              averageFunctionGas baseline.gasProfile.functions
          then "Candidate accepted." else "Candidate accepted (neutral gas result).")) := by
  have hpc : ∀ x y : ℚ, (if x ≤ 0 then (0 : ℚ) else (y - x) / x * 100) = percentChange x y :=
    fun _ _ => rfl
  simp only [hpc]
  refine ⟨?_, ?_, ?_, ?_⟩
  · intro habi
    simp only [validateOptimizedCandidate, maxAllowedRegressionPct,
      maxAllowedDeploymentRegressionPct]
    rw [if_pos habi]
    exact ⟨rfl, rfl⟩
  · intro habi hgt
    simp only [validateOptimizedCandidate, maxAllowedRegressionPct,
      maxAllowedDeploymentRegressionPct]
    rw [if_neg (by simp [habi]), if_pos hgt]
  · intro habi hle1 hgt2
    simp only [validateOptimizedCandidate, maxAllowedRegressionPct,
      maxAllowedDeploymentRegressionPct]
    rw [if_neg (by simp [habi]), if_neg (not_lt.mpr hle1), if_pos hgt2]
  · intro habi hle1 hle2
    simp only [validateOptimizedCandidate, maxAllowedRegressionPct,
      maxAllowedDeploymentRegressionPct]
    rw [if_neg (by simp [habi]), if_neg (not_lt.mpr hle1), if_neg (not_lt.mpr hle2)]
    refine ⟨rfl, ?_⟩
    simp

/-- Witness for C1: an optimized profile whose ABI dropped the only function
is rejected with the ABI reason. -/
theorem acceptance_decision_order_witness :
    (validateOptimizedCandidate exBaselineProfile exIncompatibleProfile).accepted = false ∧
    (validateOptimizedCandidate exBaselineProfile exIncompatibleProfile).reason =
      "ABI compatibility check failed." :=
  (acceptance_decision_order exBaselineProfile exIncompatibleProfile).1 (by decide)

/-! ## C2 -/

/-- Membership in the signature set. -/
theorem mem_functionSignatures {s : String × Nat × String} {abi : List AbiItem} :
    s ∈ functionSignatures abi ↔
      ∃ item ∈ abi, item.itemType = "function" ∧ sigOf item = s := by
  simp [functionSignatures, List.mem_filterMap, Option.ite_none_right_eq_some]

/-- A relocation-only change leaves the signature set untouched: the
normalized signature reads neither parameter types nor locations. -/
theorem functionSignatures_eq_of_reloc :
    ∀ {b o : List AbiItem}, AbiRelocatedOnly b o →
      functionSignatures b = functionSignatures o := by
  intro b o h
  unfold AbiRelocatedOnly at h
  induction h with
  | nil => rfl
  | @cons x y l1 l2 hxy htail ih =>
      obtain ⟨ht, hn, hm, hinp⟩ := hxy
      have hsig : sigOf x = sigOf y := by
        simp [sigOf, hn, hm, hinp.length_eq]
      simp only [functionSignatures, List.filterMap_cons] at *
      rw [ht, hsig]
      split <;> simp [ih]

/-- Relocation-only candidates pass the ABI check. -/
theorem isAbiCompatible_of_reloc {b o : List AbiItem} (h : AbiRelocatedOnly b o) :
    isAbiCompatible b o = true := by
  have hs := functionSignatures_eq_of_reloc h
  simp [isAbiCompatible, hs]

/-- Adding a function with a fresh signature breaks the ABI check (the
signature-set sizes differ). -/
theorem isAbiCompatible_append_new {b : List AbiItem} {item : AbiItem}
    (h1 : item.itemType = "function") (h2 : sigOf item ∉ functionSignatures b) :
    isAbiCompatible b (b ++ [item]) = false := by
  have hsigs : functionSignatures (b ++ [item]) =
      insert (sigOf item) (functionSignatures b) := by
    simp [functionSignatures, List.filterMap_append, h1, Finset.insert_eq,
      Finset.union_comm]
  simp [isAbiCompatible, hsigs, Finset.card_insert_of_not_mem h2]

/-- Changing the input arity of a function whose signature occurs nowhere
else breaks the ABI check (its baseline signature disappears from the
candidate's signature set). -/
theorem isAbiCompatible_arity_change {pre post : List AbiItem} {item : AbiItem}
    {newInputs : List AbiParam}
    (hty : item.itemType = "function")
    (hlen : newInputs.length ≠ item.inputs.length)
    (hnotin : sigOf item ∉ functionSignatures (pre ++ post)) :
    isAbiCompatible (pre ++ item :: post)
      (pre ++ { item with inputs := newInputs } :: post) = false := by
  have hmem : sigOf item ∈ functionSignatures (pre ++ item :: post) :=
    mem_functionSignatures.mpr ⟨item, by simp, hty, rfl⟩
  have hnot : sigOf item ∉
      functionSignatures (pre ++ { item with inputs := newInputs } :: post) := by
    intro hmem2
    rcases mem_functionSignatures.mp hmem2 with ⟨it, hit, hfn, hsig⟩
    rcases List.mem_append.mp hit with hpre | hrest
    · exact hnotin
        (mem_functionSignatures.mpr ⟨it, List.mem_append.mpr (Or.inl hpre), hfn, hsig⟩)
    · rcases List.mem_cons.mp hrest with heq | hpost
      · subst heq
        apply hlen
        have hc := congrArg (fun t => t.2.1) hsig
        simpa [sigOf] using hc
      · exact hnotin
          (mem_functionSignatures.mpr ⟨it, List.mem_append.mpr (Or.inr hpost), hfn, hsig⟩)
  unfold isAbiCompatible
  by_cases hcard : (functionSignatures (pre ++ item :: post)).card ≠
      (functionSignatures (pre ++ { item with inputs := newInputs } :: post)).card
  · simp [hcard]
  · rw [if_neg hcard]
    simp only [decide_eq_false_iff_not, Finset.subset_iff, not_forall]
    exact ⟨sigOf item, hmem, hnot⟩

/-- C2: the ABI-compatibility check accepts every candidate differing from
the baseline only by parameter data locations, rejects a candidate that adds
a new function (fresh signature), and rejects a candidate that changes the
input arity of an existing function (whose signature occurs once). -/
theorem abi_compatibility_rule :
    (∀ b o : List AbiItem, AbiRelocatedOnly b o → isAbiCompatible b o = true) ∧
    (∀ (b : List AbiItem) (item : AbiItem), item.itemType = "function" →
        sigOf item ∉ functionSignatures b → isAbiCompatible b (b ++ [item]) = false) ∧
    (∀ (pre post : List AbiItem) (item : AbiItem) (newInputs : List AbiParam),
        item.itemType = "function" → newInputs.length ≠ item.inputs.length →
        sigOf item ∉ functionSignatures (pre ++ post) →
        isAbiCompatible (pre ++ item :: post)
          (pre ++ { item with inputs := newInputs } :: post) = false) :=
  ⟨fun _ _ h => isAbiCompatible_of_reloc h,
   fun _ _ h1 h2 => isAbiCompatible_append_new h1 h2,
   fun _ _ _ _ h1 h2 h3 => isAbiCompatible_arity_change h1 h2 h3⟩

/-- Witness for C2: the memory → calldata relocation of `seedValues` is
accepted; adding `drainAll` is rejected; changing the arity of `seedValues`
is rejected. -/
theorem abi_compatibility_rule_witness :
    isAbiCompatible exAbiMemory exAbiCalldata = true ∧
    isAbiCompatible exAbiMemory (exAbiMemory ++ [exAbiExtraItem]) = false ∧
    isAbiCompatible ([] ++ exSeedValuesItem :: [])
      ([] ++ { exSeedValuesItem with inputs := [] } :: []) = false :=
  ⟨abi_compatibility_rule.1 exAbiMemory exAbiCalldata
      (List.Forall₂.cons ⟨rfl, rfl, rfl, List.Forall₂.cons rfl List.Forall₂.nil⟩
        List.Forall₂.nil),
   abi_compatibility_rule.2.1 exAbiMemory exAbiExtraItem rfl (by decide),
   abi_compatibility_rule.2.2 [] [] exSeedValuesItem [] (by decide) (by decide)
     (by decide)⟩

/-! ## C10 -/

/-- C10: when the AI's optimized contract trims to the empty string or to the
original source, the acceptance loop is skipped — zero worker
compile/benchmark calls — and the analysis still completes with no optimized
profile, a non-accepted verdict with reason `AI returned unchanged code.`,
and one attempt, while the AI result is passed through untouched. -/
theorem skip_validation_on_unchanged_code (oracle : PipelineOracle)
    (originalCode : String) (baseline : WorkerDynamicProfileB)
    (aiResult : AIOptimizationResponseB) (maxAttempts : Nat)
    (h : jsTrim aiResult.optimizedContract = "" ∨
      jsTrim aiResult.optimizedContract = originalCode) :
    generateAcceptedOptimization oracle originalCode baseline aiResult maxAttempts =
      { aiResult := aiResult
        optimizedDynamicProfile := none
        validation :=
          { accepted := false
            reason := "AI returned unchanged code."
            checks := emptyChecks }
        attempts := 1
        gasProfileCalls := 0 } := by
  unfold generateAcceptedOptimization
  rcases h with h | h
  · simp [jsOrStr, h]
  · by_cases he : jsTrim aiResult.optimizedContract = ""
    · simp [jsOrStr, he]
    · simp [jsOrStr, he, h]

/-- Witness for C10: a whitespace-only optimized contract skips the loop. -/
theorem skip_validation_on_unchanged_code_witness :
    jsTrim exBlankAiResponse.optimizedContract = "" ∧
      generateAcceptedOptimization exIdleOracle "contract Demo" exBaselineProfile
          exBlankAiResponse 3 =
        { aiResult := exBlankAiResponse
          optimizedDynamicProfile := none
          validation :=
            { accepted := false
              reason := "AI returned unchanged code."
              checks := emptyChecks }
          attempts := 1
          gasProfileCalls := 0 } :=
  ⟨by decide,
   skip_validation_on_unchanged_code exIdleOracle "contract Demo" exBaselineProfile
     exBlankAiResponse 3 (Or.inl (by decide))⟩

/-! ## C6 -/

/-- C6: `retryJob` creates a new job only for a prior job whose status is
`failed` or `cancelled`; the new record has a fresh id, `attempts` one above
the prior's, `retryOf` pointing at the prior, status `queued`, and the prior
record (indeed every other record) is left completely unchanged; for a prior
job in any other status the store is unchanged and no job is created.
`hfresh` captures that the fresh UUID is unused. -/
theorem retryJob_spec (st : WorkerStoreState) (id : String) (now : Nat) (freshId : String)
    (hfresh : st.jobs freshId = none) :
    (st.jobs id = none → workerRetryJob st id now freshId = (none, st)) ∧
    (∀ prev, st.jobs id = some prev →
      (prev.status ≠ WorkerJobStatus.failed ∧ prev.status ≠ WorkerJobStatus.cancelled →
        workerRetryJob st id now freshId = (some (toPublicWorkerJob prev), st)) ∧
      ((prev.status = WorkerJobStatus.failed ∨ prev.status = WorkerJobStatus.cancelled) →
        (workerRetryJob st id now freshId).1 =
          some (toPublicWorkerJob (retryRecordOf prev freshId now)) ∧
        (retryRecordOf prev freshId now).attempts = prev.attempts + 1 ∧
        (retryRecordOf prev freshId now).retryOf = some prev.id ∧
        (retryRecordOf prev freshId now).status = WorkerJobStatus.queued ∧
        (retryRecordOf prev freshId now).id = freshId ∧
        (workerRetryJob st id now freshId).2.jobs freshId =
          some (retryRecordOf prev freshId now) ∧
        (workerRetryJob st id now freshId).2.jobs id = some prev ∧
        (∀ k, k ≠ freshId → (workerRetryJob st id now freshId).2.jobs k = st.jobs k))) := by
  constructor
  · intro hnone
    simp [workerRetryJob, hnone]
  · intro prev hprev
    have hid : id ≠ freshId := by
      intro he
      rw [he, hfresh] at hprev
      exact Option.noConfusion hprev
    constructor
    · intro hc
      simp only [workerRetryJob, hprev]
      rw [if_pos hc]
    · intro hc
      have hnc : ¬ (prev.status ≠ WorkerJobStatus.failed ∧
          prev.status ≠ WorkerJobStatus.cancelled) := by
        rcases hc with hc | hc <;> simp [hc]
      simp only [workerRetryJob, hprev]
      rw [if_neg hnc]
      refine ⟨rfl, rfl, rfl, rfl, rfl, ?_, ?_, ?_⟩
      · simp [JsMap.set]
      · simp [JsMap.set, hid, hprev]
      · intro k hk
        simp [JsMap.set, hk]

/-- Witness for C6: retrying a concrete failed job creates the queued retry
record and leaves the prior record in place. -/
theorem retryJob_spec_witness :
    (workerRetryJob exWorkerStore "job-a" 9 "job-b").1 =
      some (toPublicWorkerJob (retryRecordOf exFailedWorkerJob "job-b" 9)) ∧
    (retryRecordOf exFailedWorkerJob "job-b" 9).attempts = 2 ∧
    (retryRecordOf exFailedWorkerJob "job-b" 9).retryOf = some "job-a" ∧
    (workerRetryJob exWorkerStore "job-a" 9 "job-b").2.jobs "job-a" =
      some exFailedWorkerJob := by
  have h := ((retryJob_spec exWorkerStore "job-a" 9 "job-b" (by decide)).2
    exFailedWorkerJob (by decide)).2 (Or.inl (by decide))
  exact ⟨h.1, h.2.1, h.2.2.1, h.2.2.2.2.2.2.1⟩

/-! ## C4 -/

/-- C4: `createOrReuseJob` reuses (returning `reused = true` and the mapped
job) exactly when the fingerprint of the trimmed source maps to an existing
job that is non-terminal, or completed within the dedupe TTL; in every other
case — no mapping, a dangling mapping, or a mapped job that ended `failed` or
`cancelled` (or `completed` too long ago) — it returns `reused = false` and
stores a fresh record under the new UUID with status `queued` and a single
`queued` progress event. -/
theorem createOrReuseJob_spec (st : RegistryState) (code : String) (now : Nat)
    (freshId : String) :
    ((createOrReuseJob st code now freshId).reused = true ↔
      ∃ jid rec, st.codeHashToJobId (codeHash code) = some jid ∧
        st.jobs jid = some rec ∧
        (¬ analysisTerminal rec.status ∨
          (rec.status = AnalysisJobStatus.completed ∧ now - rec.updatedAt ≤ dedupeTtlMs))) ∧
    ((createOrReuseJob st code now freshId).reused = true →
      ∃ jid rec, st.codeHashToJobId (codeHash code) = some jid ∧
        st.jobs jid = some rec ∧
        (createOrReuseJob st code now freshId).job = toPublicAnalysisJob rec ∧
        (createOrReuseJob st code now freshId).job.id = rec.id ∧
        (createOrReuseJob st code now freshId).state = st) ∧
    ((createOrReuseJob st code now freshId).reused = false →
      (createOrReuseJob st code now freshId).job.id = freshId ∧
      (createOrReuseJob st code now freshId).job.status = AnalysisJobStatus.queued ∧
      (createOrReuseJob st code now freshId).state.jobs freshId =
        some (newQueuedAnalysisJob code now freshId) ∧
      (newQueuedAnalysisJob code now freshId).status = AnalysisJobStatus.queued ∧
      (newQueuedAnalysisJob code now freshId).events =
        [{ phase := AnalysisJobStatus.queued, message := "Job queued.", timestamp := now }]) := by
  rcases hmap : st.codeHashToJobId (codeHash code) with _ | jid
  · refine ⟨?_, ?_, ?_⟩
    · simp [createOrReuseJob, hmap, registerNewJob]
    · simp [createOrReuseJob, hmap, registerNewJob]
    · intro _
      simp [createOrReuseJob, hmap, registerNewJob, toPublicAnalysisJob,
        newQueuedAnalysisJob, JsMap.set]
  · rcases hrec : st.jobs jid with _ | rec
    · refine ⟨?_, ?_, ?_⟩
      · simp only [createOrReuseJob, hmap, hrec]
        constructor
        · intro h
          exact absurd h (by simp [registerNewJob])
        · rintro ⟨jid2, rec2, hj, hr, _⟩
          rw [Option.some.injEq] at hj
          rw [← hj] at hr
          rw [hrec] at hr
          exact Option.noConfusion hr
      · intro h
        rw [createOrReuseJob] at h
        simp only [hmap, hrec] at h
        exact absurd h (by simp [registerNewJob])
      · intro _
        simp [createOrReuseJob, hmap, hrec, registerNewJob, toPublicAnalysisJob,
          newQueuedAnalysisJob, JsMap.set]
    · by_cases hcond : ¬ analysisTerminal rec.status ∨
        (analysisTerminal rec.status ∧ rec.status = AnalysisJobStatus.completed ∧
          now - rec.updatedAt ≤ dedupeTtlMs)
      · have hres : createOrReuseJob st code now freshId =
            { job := toPublicAnalysisJob rec, reused := true, state := st } := by
          simp only [createOrReuseJob, hmap, hrec]
          rw [if_pos hcond]
        refine ⟨?_, ?_, ?_⟩
        · rw [hres]
          simp only [true_iff]
          refine ⟨jid, rec, rfl, hrec, ?_⟩
          rcases hcond with h | h
          · exact Or.inl h
          · exact Or.inr ⟨h.2.1, h.2.2⟩
        · intro _
          exact ⟨jid, rec, rfl, hrec, by rw [hres], by rw [hres]; rfl, by rw [hres]⟩
        · intro hfalse
          rw [hres] at hfalse
          exact absurd hfalse (by simp)
      · have hres : createOrReuseJob st code now freshId =
            registerNewJob
              { st with codeHashToJobId := st.codeHashToJobId.erase (codeHash code) }
              code now freshId := by
          simp only [createOrReuseJob, hmap, hrec]
          rw [if_neg hcond]
        refine ⟨?_, ?_, ?_⟩
        · rw [hres]
          simp only [registerNewJob]
          constructor
          · intro h
            exact absurd h (by simp)
          · rintro ⟨jid2, rec2, hj, hr, hc2⟩
            rw [Option.some.injEq] at hj
            subst hj
            rw [hrec, Option.some.injEq] at hr
            subst hr
            exfalso
            apply hcond
            rcases hc2 with h | h
            · exact Or.inl h
            · exact Or.inr ⟨Or.inl h.1, h.1, h.2⟩
        · intro h
          rw [hres] at h
          exact absurd h (by simp [registerNewJob])
        · intro _
          rw [hres]
          simp [registerNewJob, toPublicAnalysisJob, newQueuedAnalysisJob, JsMap.set]

/-- Witness for C4: submitting the source of a mapped, queued (non-terminal)
job is deduplicated onto that job. -/
theorem createOrReuseJob_spec_witness :
    (createOrReuseJob exRegistryState "src" 0 "job-new").reused = true :=
  (createOrReuseJob_spec exRegistryState "src" 0 "job-new").1.mpr
    ⟨"job-q", exQueuedAnalysisJob, by decide, by decide, Or.inl (by decide)⟩

/-! ## C5 -/

/-- When every attempt of one model fails, the retry loop records one failure
line per retry index and gives the model up only after exhausting the whole
retry budget. -/
theorem tryRetries_all_fail (p : ProviderE) (m : String) :
    ∀ (fuel r : Nat) (failures : List String),
      (∀ i, i < fuel → (attemptFailureMsg p m (r + i)).isSome = true) →
      tryRetries p m r fuel failures =
        (none, failures ++ (List.range fuel).map fun i =>
          failureLine p m (r + i) ((attemptFailureMsg p m (r + i)).getD "")) := by
  intro fuel
  induction fuel with
  | zero =>
      intro r failures _
      simp [tryRetries]
  | succ n ih =>
      intro r failures h
      have h0 : (attemptFailureMsg p m r).isSome = true := by
        have := h 0 (Nat.succ_pos n)
        simpa using this
      cases hA : attemptResult p m r with
      | ok res =>
          exfalso
          unfold attemptFailureMsg at h0
          rw [hA] at h0
          simp at h0
      | error msg =>
          have hmsg : attemptFailureMsg p m r = some msg := by
            unfold attemptFailureMsg
            rw [hA]
          have hrec := ih (r + 1) (failures ++ [failureLine p m r msg])
            (fun i hi => by
              have hh := h (i + 1) (Nat.succ_lt_succ hi)
              have heq : r + (i + 1) = r + 1 + i := by omega
              rw [heq] at hh
              exact hh)
          unfold tryRetries
          rw [hA]
          dsimp only
          rw [hrec]
          rw [List.range_succ_eq_map]
          simp only [List.map_cons, List.map_map, Nat.add_zero, hmsg, Option.getD_some,
            List.append_assoc, List.singleton_append]
          refine congrArg (Prod.mk none) (congrArg (failures ++ ·) (congrArg (_ :: ·) ?_))
          apply List.map_congr_left
          intro i _
          have heq : r + 1 + i = r + Nat.succ i := by omega
          simp [Function.comp, heq]

/-- When every attempt of every model of one provider fails, the model loop
walks all models, accumulating the per-model retry enumerations in order. -/
theorem tryModels_all_fail (p : ProviderE) (retries : Nat) :
    ∀ (ms : List String) (failures : List String),
      (∀ m ∈ ms, ∀ r, r ≤ retries → (attemptFailureMsg p m r).isSome = true) →
      tryModels p retries ms failures =
        (none, failures ++ ms.flatMap fun m =>
          (List.range (retries + 1)).map fun r =>
            failureLine p m r ((attemptFailureMsg p m r).getD "")) := by
  intro ms
  induction ms with
  | nil =>
      intro failures _
      simp [tryModels]
  | cons m rest ih =>
      intro failures h
      have hm := tryRetries_all_fail p m (retries + 1) 0 failures
        (fun i hi => by
          have := h m (List.mem_cons_self m rest) i (Nat.lt_succ_iff.mp hi)
          simpa using this)
      have hrest := ih (failures ++ (List.range (retries + 1)).map fun r =>
          failureLine p m r ((attemptFailureMsg p m r).getD ""))
        (fun m2 hm2 r hr => h m2 (List.mem_cons_of_mem m hm2) r hr)
      unfold tryModels
      rw [hm]
      simp only [Nat.zero_add] at *
      rw [hrest]
      simp [List.flatMap_cons, List.append_assoc]

/-- When every attempt of every provider fails, the provider loop walks all
providers, accumulating the whole enumeration. -/
theorem tryProviders_all_fail (retries : Nat) :
    ∀ (ps : List ProviderE) (failures : List String),
      (∀ p ∈ ps, ∀ m ∈ p.models, ∀ r, r ≤ retries →
        (attemptFailureMsg p m r).isSome = true) →
      tryProviders retries ps failures =
        (none, failures ++ ps.flatMap fun p =>
          p.models.flatMap fun m =>
            (List.range (retries + 1)).map fun r =>
              failureLine p m r ((attemptFailureMsg p m r).getD "")) := by
  intro ps
  induction ps with
  | nil =>
      intro failures _
      simp [tryProviders]
  | cons p rest ih =>
      intro failures h
      have hp := tryModels_all_fail p retries p.models failures
        (fun m hm r hr => h p (List.mem_cons_self p rest) m hm r hr)
      have hrest := ih (failures ++ p.models.flatMap fun m =>
          (List.range (retries + 1)).map fun r =>
            failureLine p m r ((attemptFailureMsg p m r).getD ""))
        (fun p2 hp2 m hm r hr => h p2 (List.mem_cons_of_mem p hp2) m hm r hr)
      unfold tryProviders
      rw [hp]
      dsimp only
      rw [hrest]
      simp [List.flatMap_cons, List.append_assoc]

/-- Counterexample to C5 as stated: one provider with one model that always
fails with the non-retriable message `bad request`, retry budget 2.  The
claim says a non-retriable failure skips directly to the next model/provider
with no further retries of that model — here that would leave exactly one
recorded attempt.  The code instead performs retries 1 and 2 of the same
model (the `continue` in the catch block only bypasses the backoff sleep),
recording three attempts. -/
theorem callWithFallback_counterexample :
    isRetriableError "bad request" = false ∧
    (tryProviders 2 [exProviderBadRequest] []).2 =
      ["p/m retry 0: bad request", "p/m retry 1: bad request",
       "p/m retry 2: bad request"] ∧
    ¬ (tryProviders 2 [exProviderBadRequest] []).2.length ≤ 1 := by
  refine ⟨by decide, by decide, by decide⟩

/-- C5 (amended): the fallback tries providers in order, each provider's
models in order, and each model with retries `0..AI_PROVIDER_RETRIES` — a
non-retriable failure skips only the backoff delay, not the remaining retries
of that model; when every provider/model/retry fails, it raises
`All providers/models failed.` enumerating one attempt per provider/model/
retry triple, in order. -/
theorem callWithFallback_exhaustive (providers : List ProviderE) (retries : Nat)
    (h : ∀ p ∈ providers, ∀ m ∈ p.models, ∀ r, r ≤ retries →
      (attemptFailureMsg p m r).isSome = true) :
    callWithFallback providers retries =
      Except.error ("All providers/models failed. " ++
        String.intercalate " | " (expectedFailures providers retries)) := by
  unfold callWithFallback
  rw [tryProviders_all_fail retries providers [] h]
  simp [expectedFailures]

/-- Witness for C5 at the concrete always-failing provider. -/
theorem callWithFallback_exhaustive_witness :
    callWithFallback [exProviderBadRequest] 2 =
      Except.error ("All providers/models failed. " ++
        String.intercalate " | " (expectedFailures [exProviderBadRequest] 2)) :=
  callWithFallback_exhaustive [exProviderBadRequest] 2 (by decide)

end GweiZero
